import Mathlib

/-!
Verification of the WSJ financial-statement ingestion pipeline
(`wsj_updater.py`, `wsj_cleaner.py`, `scrape_financial_data.py`).

The Python source is shallowly embedded below: pandas rows become a `Rec`
structure of `Cell` values, the textual value parser `convert_abbr` works on
Lean `String`s (character by character, mirroring the Python string
operations), dates are `Int`s, and the per-statement accumulation of scraped
rows is an explicit fold over a `ScrapeState`.
-/

namespace WSJ

/-! ## Value parser: `wsj_updater.WSJScraper.get_statement_data.convert_abbr`
(src/wsj_updater.py lines 169-200).

`convert_abbr` returns the raw string back for the two absent-cell sentinels
`'-'` and `''`; otherwise it parses the text to a float.  `CellValue.err`
models the case where both `Decimal(temp_row)` and the fallback
`float(temp_row)` raise (the fallback accepts the same decimal grammar as
`Decimal` on the inputs this scraper can see, so a failed parse is an
exception either way). -/

inductive CellValue where
  | sentinel (s : String)
  | num (q : Rat)
  | err
deriving DecidableEq, Repr

/-- Python `row.replace(',', '')`: removes every comma. -/
def removeCommas (s : String) : String := ⟨s.toList.filter (fun c => c ≠ ',')⟩

/-- Python `temp_row.replace('%', '')`: removes every percent sign. -/
def removePercent (s : String) : String := ⟨s.toList.filter (fun c => c ≠ '%')⟩

def isParenChar (c : Char) : Bool := c = '(' || c = ')'

/-- Python `temp_row.strip('()')`: drops `(` and `)` from both ends. -/
def stripParens (s : String) : String :=
  ⟨((s.toList.dropWhile isParenChar).reverse.dropWhile isParenChar).reverse⟩

/-- Python `temp_row.startswith('(')`. -/
def startsParen (s : String) : Bool :=
  match s.toList with
  | '(' :: _ => true
  | _ => false

/-- Python `temp_row.endswith(')')`. -/
def endsParen (s : String) : Bool :=
  match s.toList.getLast? with
  | some ')' => true
  | _ => false

def digitsVal (cs : List Char) : Nat :=
  cs.foldl (fun a c => a * 10 + (c.toNat - 48)) 0

/-- Decimal-literal grammar accepted by Python `Decimal` / `float` on the
cell contents this scraper produces: an optional sign, then digits with at
most one decimal point and at least one digit overall (exponents and the
special values never occur in WSJ table cells and are not modelled). -/
def parseDecimal (s : String) : Option Rat :=
  let cs := s.toList
  let sign : Bool := cs.head? = some '-'
  let cs1 := if cs.head? = some '-' || cs.head? = some '+' then cs.tail else cs
  let ip := cs1.takeWhile Char.isDigit
  let r1 := cs1.dropWhile Char.isDigit
  let body : Option Rat :=
    match r1 with
    | [] => if ip.isEmpty then none else some ((digitsVal ip : Nat) : Rat)
    | '.' :: r2 =>
      let fp := r2.takeWhile Char.isDigit
      let r3 := r2.dropWhile Char.isDigit
      if r3.isEmpty && !(ip.isEmpty && fp.isEmpty) then
        some (((digitsVal ip : Nat) : Rat) + ((digitsVal fp : Nat) : Rat) / ((10 : Rat) ^ fp.length))
      else none
    | _ => none
  match body with
  | none => none
  | some v => some (if sign then -v else v)

/-- The EPS branch, src/wsj_updater.py line 184:
`temp_row = '-'+temp_row.strip('()') if temp_row.startswith('(') else temp_row`. -/
def epsNormalize (t : String) : String :=
  if startsParen t then "-" ++ stripParens t else t

/-- The non-EPS parenthesised-negative branch, src/wsj_updater.py lines 192-193. -/
def nonEpsNormalize (t : String) : String :=
  if startsParen t && endsParen t then "-" ++ stripParens t else t

/-- Shallow embedding of `convert_abbr(row, eps_true)`
(src/wsj_updater.py lines 169-200). -/
def convert_abbr (row : String) (eps_true : Bool) : CellValue :=
  if row = "-" || row = "" then CellValue.sentinel row
  else
    let temp_row := removeCommas row
    if eps_true then
      match parseDecimal (epsNormalize temp_row) with
      | some q => CellValue.num q
      | none => CellValue.err
    else if '%' ∈ temp_row.data then
      match parseDecimal (removePercent temp_row) with
      | some q => CellValue.num (q / 100)
      | none => CellValue.err
    else
      match parseDecimal (nonEpsNormalize temp_row) with
      | some q => CellValue.num (q * 1000000)
      | none => CellValue.err

/-! ## Cutoff truncation: `check_dbdate_is_latest` and the date truncation in
`get_statement_data` (src/wsj_updater.py lines 157-168 and 288-296).

`latest` models the `latest_date_df` frame (`None` when the last-date RPC
failed), as a list of `(symbol, last_date)` rows; dates are `Int`s. -/

/-- Pandas `.max()` over a column of the rows selected for one symbol. -/
def last_date_max : List Int → Option Int
  | [] => none
  | x :: xs => some (xs.foldl max x)

/-- The per-symbol SyncCursor: `latest_date_df.loc[df['symbol']==symbol, 'last_date'].max()`. -/
def sync_cursor (l : List (String × Int)) (s : String) : Option Int :=
  last_date_max ((l.filter (fun p => p.1 == s)).map Prod.snd)

/-- Shallow embedding of `check_dbdate_is_latest(symbol, wsj_date)`
(src/wsj_updater.py lines 157-168): returns `(dblatest_true, dblatest_date)`. -/
def check_dbdate_is_latest (latest : Option (List (String × Int))) (symbol : String)
    (wsj_date : Int) : Bool × Option Int :=
  match latest with
  | none => (false, none)
  | some l =>
    if symbol ∉ l.map Prod.fst then (false, none)
    else
      match sync_cursor l symbol with
      | none => (false, none)
      | some dblatest_date =>
        if wsj_date ≤ dblatest_date then (true, none) else (false, some dblatest_date)

/-- The date handling in `get_statement_data` (src/wsj_updater.py lines 288-296):
on `dblatest_true` the symbol is skipped (`continue`, zero rows); otherwise
`dates = list(itertools.takewhile(lambda x: x>dblatest_date, dates)) if dblatest_date else dates`. -/
def truncated_dates (latest : Option (List (String × Int))) (symbol : String)
    (dates : List Int) : List Int :=
  match dates with
  | [] => []
  | d0 :: _ =>
    match check_dbdate_is_latest latest symbol d0 with
    | (true, _) => []
    | (false, some d) => dates.takeWhile (fun x => decide (d < x))
    | (false, none) => dates

/-! ## Theorems for the parser and the cutoff -/

/-- C2. Value-parser scaling: a non-EPS numeric cell is parsed with thousands
separators stripped and parentheses as negation and the result is multiplied
by 1,000,000, so `convert_abbr "(500)" false = -500000000`; an EPS cell is
parsed the same way but without any magnitude scaling, so
`convert_abbr "(2.5)" true = -2.5`. -/
theorem value_parser_scaling :
    convert_abbr "(500)" false = CellValue.num (-500000000) ∧
    convert_abbr "(2.5)" true = CellValue.num (-(5 / 2)) ∧
    (∀ (s : String) (q : Rat), s ≠ "-" → s ≠ "" →
      '%' ∉ (removeCommas s).data →
      parseDecimal (nonEpsNormalize (removeCommas s)) = some q →
      convert_abbr s false = CellValue.num (q * 1000000)) ∧
    (∀ (s : String) (q : Rat), s ≠ "-" → s ≠ "" →
      parseDecimal (epsNormalize (removeCommas s)) = some q →
      convert_abbr s true = CellValue.num q) := by
  refine ⟨by with_unfolding_all rfl, by with_unfolding_all rfl, ?_, ?_⟩
  · intro s q h1 h2 h3 h4
    simp [convert_abbr, h1, h2, h3, h4]
  · intro s q h1 h2 h4
    simp [convert_abbr, h1, h2, h4]

/-- Witness for C2: the general non-EPS branch applied to the concrete cell
`"1,234"` (thousands separator stripped, scaled by 1,000,000). -/
theorem value_parser_scaling_witness :
    convert_abbr "1,234" false = CellValue.num (1234 * 1000000) :=
  value_parser_scaling.2.2.1 "1,234" 1234 (by decide) (by decide) (by decide)
    (by with_unfolding_all rfl)

/-- C8. Absent-cell sentinel: for every field kind (EPS or not), the parser
applied to `"-"` or to the empty string returns the reported-as-absent
sentinel (the raw placeholder, later resolved to null downstream), never a
numeric value and in particular never zero. -/
theorem absent_cell_sentinel :
    ∀ eps_true : Bool,
      convert_abbr "-" eps_true = CellValue.sentinel "-" ∧
      convert_abbr "" eps_true = CellValue.sentinel "" ∧
      (∀ q : Rat, convert_abbr "-" eps_true ≠ CellValue.num q) ∧
      (∀ q : Rat, convert_abbr "" eps_true ≠ CellValue.num q) := by
  intro eps_true
  refine ⟨rfl, rfl, ?_, ?_⟩ <;> intro q <;> simp [convert_abbr]

/-- C1. Cutoff truncation: with a SyncCursor `d` recorded for symbol `s`, a
fetched date sequence whose newest date is not strictly newer than `d`
contributes zero rows, otherwise exactly the prefix of dates strictly greater
than `d` is retained in the original order; with no cursor (symbol absent
from the last-date table, or the table unavailable) every date is retained. -/
theorem cutoff_truncation (l : List (String × Int)) (s : String) (d0 : Int) (rest : List Int) :
    (∀ d : Int, sync_cursor l s = some d → s ∈ l.map Prod.fst →
      ((d0 ≤ d → truncated_dates (some l) s (d0 :: rest) = []) ∧
       (d < d0 → truncated_dates (some l) s (d0 :: rest)
          = (d0 :: rest).takeWhile (fun x => decide (d < x))))) ∧
    (s ∉ l.map Prod.fst → truncated_dates (some l) s (d0 :: rest) = d0 :: rest) ∧
    truncated_dates none s (d0 :: rest) = d0 :: rest := by
  refine ⟨?_, ?_, rfl⟩
  · intro d hcur hmem
    constructor
    · intro hle
      simp [truncated_dates, check_dbdate_is_latest, hmem, hcur, hle]
    · intro hlt
      have hnle : ¬ (d0 ≤ d) := not_le.mpr hlt
      simp [truncated_dates, check_dbdate_is_latest, hmem, hcur, hnle]
  · intro hmem
    simp [truncated_dates, check_dbdate_is_latest, hmem]

/-- Witness for C1: cursor 10 for symbol AAA, fetched dates 12,11,9,8 — the
retained dates are the prefix strictly above the cursor. -/
theorem cutoff_truncation_witness :
    truncated_dates (some [("AAA", 10)]) "AAA" [12, 11, 9, 8]
      = ([12, 11, 9, 8] : List Int).takeWhile (fun x => decide ((10 : Int) < x)) :=
  ((cutoff_truncation [("AAA", 10)] "AAA" 12 [11, 9, 8]).1 10 (by decide) (by decide)).2
    (by decide)

/-! ## Cleaner cells and records (`wsj_cleaner.WSJCleaner`)

A scraped cell is a parsed float, the placeholder string `'-'` or `''`
returned unchanged by `convert_abbr`, or null (pandas NaN/None, e.g. from
back-filled columns).  `wsj_format` is the per-symbol format code merged in
from the company-profile table (null for a symbol the table does not know). -/

inductive Cell where
  | null
  | hyphen
  | emptyStr
  | num (q : Rat)
deriving DecidableEq, Repr

def Cell.isna : Cell → Bool
  | .null => true
  | _ => false

def Cell.notna (c : Cell) : Bool := !c.isna

/-- `pd.to_numeric` on one cell; `none` models NaN.  On the placeholder
strings `'-'`/`''` the real `pd.to_numeric` raises, which aborts the whole
cleaning pass (`WSJCleaner.clean` catches the exception and stops with no
output); the theorems below evaluate `toNum` only at numeric or null cells,
inside the abort-free fragment. -/
def Cell.toNum : Cell → Option Rat
  | .num q => some q
  | _ => none

/-- A numeric result written back into a cell: NaN becomes null. -/
def ofNum : Option Rat → Cell
  | none => Cell.null
  | some q => Cell.num q

/-- NaN-propagating addition of two numeric columns. -/
def addN : Option Rat → Option Rat → Option Rat
  | some a, some b => some (a + b)
  | _, _ => none

/-- NaN-propagating subtraction of two numeric columns. -/
def subN : Option Rat → Option Rat → Option Rat
  | some a, some b => some (a - b)
  | _, _ => none

/-- One row of the raw-data frame, with the metric columns referenced by
`WSJCleaner._create_wsj_format`, `_clean_nulls` and `_enrich_columns`
(src/wsj_cleaner.py). -/
structure Rec where
  symbol : String
  wsj_format : Option Int
  short_term_debt : Cell
  long_term_debt : Cell
  selling_general_and_administration_expense : Cell
  selling_general_and_admin_expenses_and_other : Cell
  other_operating_expenses : Cell
  non_interest_income : Cell
  net_interest_income : Cell
  gross_income : Cell
  depreciation_and_amortization_expense : Cell
  ebitda : Cell
  total_assets : Cell
  total_current_assets : Cell
  pretax_income : Cell
  total_current_liabilities : Cell
  total_liabilities : Cell
  total_revenue : Cell
  cogs_including_depreciation_amortization : Cell
  interest_expense_non_operating : Cell
  interest_expense_net_of_interest_capitalized : Cell
  operating_income : Cell
  operating_income_before_interest_expense : Cell
  total_cash_and_due_from_banks : Cell
  total_debt : Cell
  ebit : Cell
  total_non_current_assets : Cell
deriving DecidableEq, Repr

/-- Row-wise format assignment of `WSJCleaner._create_wsj_format`
(src/wsj_cleaner.py lines 76-79): rows with a non-null bank cash line get 4,
then rows with a non-null pre-interest operating income line get 3
(overwriting a 4 just assigned), and anything still outside {3,4} gets 1. -/
def create_wsj_format_row (r : Rec) : Option Int :=
  let f1 := if r.total_cash_and_due_from_banks.notna then some 4 else r.wsj_format
  let f2 := if r.operating_income_before_interest_expense.notna then some 3 else f1
  if f2 = some 3 ∨ f2 = some 4 then f2 else some 1

/-- The debt absence test of src/wsj_cleaner.py lines 110-116:
`(col=='-')|col.isna()`. -/
def isAbsentDebt (c : Cell) : Bool := (c == Cell.hyphen) || c.isna

/-- The three sequential `.loc` assignments on the two debt columns
(src/wsj_cleaner.py lines 108-117), on one row's pair of debt cells:
both absent → both null; then absent short with present long → short 0;
then absent long with present short → long 0.  Each condition is evaluated
on the already-updated columns, as in the source. -/
def debt_cofill_pair (std ltd : Cell) : Cell × Cell :=
  let p1 := if isAbsentDebt std && isAbsentDebt ltd then (Cell.null, Cell.null) else (std, ltd)
  let p2 := if isAbsentDebt p1.1 && p1.2.notna then (Cell.num 0, p1.2) else p1
  let p3 := if isAbsentDebt p2.2 && p2.1.notna then (p2.1, Cell.num 0) else p2
  p3

/-- The per-element effect of `.replace('-', None)` on the allow-listed
columns (src/wsj_cleaner.py lines 120-126).  (Some pandas versions treat
`replace(x, None)` as a pad-fill across rows; no claim below depends on this
step, and every record a theorem evaluates it on is hyphen-free in these
columns, where both readings agree.) -/
def fillHyphen (c : Cell) : Cell := if c == Cell.hyphen then Cell.null else c

def fill_hyphen_cols (r : Rec) : Rec :=
  { r with
    selling_general_and_administration_expense :=
      fillHyphen r.selling_general_and_administration_expense,
    other_operating_expenses := fillHyphen r.other_operating_expenses,
    non_interest_income := fillHyphen r.non_interest_income,
    net_interest_income := fillHyphen r.net_interest_income,
    gross_income := fillHyphen r.gross_income,
    depreciation_and_amortization_expense := fillHyphen r.depreciation_and_amortization_expense,
    ebitda := fillHyphen r.ebitda,
    total_assets := fillHyphen r.total_assets,
    total_current_assets := fillHyphen r.total_current_assets,
    pretax_income := fillHyphen r.pretax_income,
    total_current_liabilities := fillHyphen r.total_current_liabilities,
    total_liabilities := fillHyphen r.total_liabilities,
    total_revenue := fillHyphen r.total_revenue,
    cogs_including_depreciation_amortization :=
      fillHyphen r.cogs_including_depreciation_amortization,
    interest_expense_non_operating := fillHyphen r.interest_expense_non_operating }

/-- Shallow embedding of `WSJCleaner._clean_nulls` (src/wsj_cleaner.py
lines 101-172), one row at a time, with the `np.where` assignments applied in
source order. -/
def _clean_nulls (r : Rec) : Rec :=
  let t1 := { r with
    short_term_debt := (debt_cofill_pair r.short_term_debt r.long_term_debt).1,
    long_term_debt := (debt_cofill_pair r.short_term_debt r.long_term_debt).2 }
  let t2 := fill_hyphen_cols t1
  let t3 := { t2 with other_operating_expenses :=
      (if (t2.wsj_format == some 3) && t2.other_operating_expenses.isna then
        ofNum (subN t2.selling_general_and_admin_expenses_and_other.toNum
          t2.selling_general_and_administration_expense.toNum)
      else t2.other_operating_expenses) }
  let t4 := { t3 with other_operating_expenses :=
      if t3.other_operating_expenses.isna && t3.gross_income.notna then Cell.num 0
      else t3.other_operating_expenses }
  let t5 := { t4 with selling_general_and_admin_expenses_and_other :=
      (if t4.selling_general_and_admin_expenses_and_other.isna then
        ofNum (addN t4.selling_general_and_administration_expense.toNum
          t4.other_operating_expenses.toNum)
      else t4.selling_general_and_admin_expenses_and_other) }
  let t6 := { t5 with operating_income :=
      if t5.wsj_format == some 3 then t5.operating_income_before_interest_expense
      else t5.operating_income }
  let t7 := { t6 with operating_income :=
      (if t6.operating_income.isna && (t6.wsj_format == some 1) then
        ofNum (subN (subN t6.gross_income.toNum
          t6.selling_general_and_administration_expense.toNum)
          t6.other_operating_expenses.toNum)
      else t6.operating_income) }
  let t8 := { t7 with interest_expense_non_operating :=
      if t7.wsj_format == some 3 then t7.interest_expense_net_of_interest_capitalized
      else t7.interest_expense_non_operating }
  let t9 := { t8 with gross_income :=
      (if t8.gross_income.isna then
        ofNum (subN t8.total_revenue.toNum t8.cogs_including_depreciation_amortization.toNum)
      else t8.gross_income) }
  t9

/-- Shallow embedding of `WSJCleaner._enrich_columns` (src/wsj_cleaner.py
lines 174-201), one row at a time. -/
def _enrich_columns (r : Rec) : Rec :=
  let t1 := { r with total_debt :=
      if r.total_debt.isna then ofNum (addN r.short_term_debt.toNum r.long_term_debt.toNum)
      else r.total_debt }
  let t2 := { t1 with total_revenue :=
      (if t1.total_revenue.isna then
        ofNum (addN t1.net_interest_income.toNum t1.non_interest_income.toNum)
      else t1.total_revenue) }
  let t3 := { t2 with ebit :=
      (if (t2.wsj_format == some 1) || (t2.wsj_format == some 3) then
        ofNum (addN t2.pretax_income.toNum t2.interest_expense_non_operating.toNum)
      else Cell.null) }
  let t4 := { t3 with ebitda :=
      (if t3.ebitda.notna then
        ofNum (addN t3.ebit.toNum t3.depreciation_and_amortization_expense.toNum)
      else Cell.null) }
  let t5 := { t4 with total_non_current_assets :=
      (ofNum (subN t4.total_assets.toNum t4.total_current_assets.toNum)) }
  t5

/-- A row with every metric cell null and no recorded format. -/
def emptyRec : Rec where
  symbol := "AAA"
  wsj_format := none
  short_term_debt := Cell.null
  long_term_debt := Cell.null
  selling_general_and_administration_expense := Cell.null
  selling_general_and_admin_expenses_and_other := Cell.null
  other_operating_expenses := Cell.null
  non_interest_income := Cell.null
  net_interest_income := Cell.null
  gross_income := Cell.null
  depreciation_and_amortization_expense := Cell.null
  ebitda := Cell.null
  total_assets := Cell.null
  total_current_assets := Cell.null
  pretax_income := Cell.null
  total_current_liabilities := Cell.null
  total_liabilities := Cell.null
  total_revenue := Cell.null
  cogs_including_depreciation_amortization := Cell.null
  interest_expense_non_operating := Cell.null
  interest_expense_net_of_interest_capitalized := Cell.null
  operating_income := Cell.null
  operating_income_before_interest_expense := Cell.null
  total_cash_and_due_from_banks := Cell.null
  total_debt := Cell.null
  ebit := Cell.null
  total_non_current_assets := Cell.null

/-! ## Theorems for the cleaner -/

/-- The record of the spec's end-to-end scenario: format 3, pretax income
1,000,000,000, no interest_expense_non_operating, and an
interest-expense-net-of-interest-capitalized of 50,000,000. -/
def fmt3Rec : Rec := { emptyRec with
  wsj_format := some 3,
  pretax_income := Cell.num 1000000000,
  interest_expense_net_of_interest_capitalized := Cell.num 50000000 }

/-- C3. Format-3 interest and ebit derivation: for format 3 the cleaner sets
interest_expense_non_operating to the net-of-interest-capitalized line; ebit
is pretax_income + interest_expense_non_operating exactly for formats 1 and
3 and null for format 4; on the concrete format-3 scenario record this gives
interest_expense_non_operating 50,000,000 and ebit 1,050,000,000. -/
theorem format3_interest_and_ebit :
    (∀ r : Rec, r.wsj_format = some 3 →
      (_clean_nulls r).interest_expense_non_operating
        = r.interest_expense_net_of_interest_capitalized) ∧
    (∀ r : Rec, r.wsj_format = some 1 ∨ r.wsj_format = some 3 →
      (_enrich_columns r).ebit
        = ofNum (addN r.pretax_income.toNum r.interest_expense_non_operating.toNum)) ∧
    (∀ r : Rec, r.wsj_format = some 4 → (_enrich_columns r).ebit = Cell.null) ∧
    (_enrich_columns (_clean_nulls fmt3Rec)).interest_expense_non_operating
      = Cell.num 50000000 ∧
    (_enrich_columns (_clean_nulls fmt3Rec)).ebit = Cell.num 1050000000 := by
  refine ⟨?_, ?_, ?_, by with_unfolding_all rfl, by with_unfolding_all rfl⟩
  · intro r h
    simp [_clean_nulls, fill_hyphen_cols, h]
  · intro r h
    rcases h with h | h <;> simp [_enrich_columns, h]
  · intro r h
    simp [_enrich_columns, h]

/-- Witness for C3: the format-3 interest rule applied to the scenario record. -/
theorem format3_interest_and_ebit_witness :
    (_clean_nulls fmt3Rec).interest_expense_non_operating
      = fmt3Rec.interest_expense_net_of_interest_capitalized :=
  format3_interest_and_ebit.1 fmt3Rec rfl

/-- Absent in the sense of the debt co-fill rule: null or the `'-'` placeholder. -/
def cellAbsent (c : Cell) : Prop := c = Cell.null ∨ c = Cell.hyphen

instance (c : Cell) : Decidable (cellAbsent c) :=
  decidable_of_iff (c = Cell.null ∨ c = Cell.hyphen) Iff.rfl

/-- C7. Debt co-fill: if both debt cells are absent (null or `'-'`) both come
out null, never 0; if exactly one is present, the absent one becomes 0 and
the present one keeps its value. -/
theorem debt_cofill_rules (r : Rec) :
    (cellAbsent r.short_term_debt → cellAbsent r.long_term_debt →
      (_clean_nulls r).short_term_debt = Cell.null ∧
      (_clean_nulls r).long_term_debt = Cell.null) ∧
    (cellAbsent r.short_term_debt → ¬ cellAbsent r.long_term_debt →
      (_clean_nulls r).short_term_debt = Cell.num 0 ∧
      (_clean_nulls r).long_term_debt = r.long_term_debt) ∧
    (¬ cellAbsent r.short_term_debt → cellAbsent r.long_term_debt →
      (_clean_nulls r).short_term_debt = r.short_term_debt ∧
      (_clean_nulls r).long_term_debt = Cell.num 0) := by
  have hs : (_clean_nulls r).short_term_debt
      = (debt_cofill_pair r.short_term_debt r.long_term_debt).1 := rfl
  have hl : (_clean_nulls r).long_term_debt
      = (debt_cofill_pair r.short_term_debt r.long_term_debt).2 := rfl
  rw [hs, hl]
  rcases hstd : r.short_term_debt with _ | _ | _ | q <;>
    rcases hltd : r.long_term_debt with _ | _ | _ | p <;>
      simp [debt_cofill_pair, isAbsentDebt, Cell.isna, Cell.notna, cellAbsent]

/-- The co-fill example record: short null, long 100. -/
def debtRec : Rec := { emptyRec with long_term_debt := Cell.num 100 }

/-- Witness for C7: short null and long 100 clean to short 0, long kept. -/
theorem debt_cofill_rules_witness :
    (_clean_nulls debtRec).short_term_debt = Cell.num 0 ∧
    (_clean_nulls debtRec).long_term_debt = debtRec.long_term_debt :=
  (debt_cofill_rules debtRec).2.1 (Or.inl rfl) (by decide)

/-- A record carrying both discriminant lines. -/
def bankRec : Rec := { emptyRec with
  total_cash_and_due_from_banks := Cell.num 1,
  operating_income_before_interest_expense := Cell.num 2 }

/-- C10. Discriminant precedence: when both the bank cash discriminant and
the pre-interest operating income discriminant are non-null, the row's
format comes out 3 (the format-3 assignment is applied after, and
overwrites, the format-4 assignment), never 4. -/
theorem discriminant_precedence (r : Rec)
    (h1 : r.total_cash_and_due_from_banks.notna = true)
    (h2 : r.operating_income_before_interest_expense.notna = true) :
    create_wsj_format_row r = some 3 := by
  simp [create_wsj_format_row, h1, h2]

/-- Witness for C10: a record with both discriminant cells set resolves to
format 3. -/
theorem discriminant_precedence_witness :
    create_wsj_format_row bankRec = some 3 :=
  discriminant_precedence bankRec rfl rfl

/-! ## Format drift: `_create_wsj_format.test_duplication`, `test_equality`
and `save_profile_to_database` (src/wsj_cleaner.py lines 52-99 and 256-268).

`profile` models `profile_data` (the freshly resolved per-symbol formats,
`temp_df[['symbol','wsj_format']].drop_duplicates()`); `db` models the
`wsj_format_db` column of `ticker_info` (null for a symbol the
company-profile table does not know). -/

/-- `profile_data.duplicated('symbol')` is non-empty: some symbol resolved to
more than one format (src/wsj_cleaner.py lines 53-60). -/
def has_duplicated_symbol (profile : List (String × Int)) : Bool :=
  decide (¬ (profile.map Prod.fst).Nodup)

/-- `test_equality` (src/wsj_cleaner.py lines 61-74): rows whose scraped
format differs from the recorded one (a null recorded format compares
unequal, as NaN does in pandas) are split into `changed_df` (recorded format
non-null and not 5) and `nonequal_df` (recorded format null or 5); returns
`(changed_format_symbols, new_format_symbols)`. -/
def test_equality (profile : List (String × Int)) (db : String → Option Int) :
    List String × List String :=
  let filter_df := profile.filter (fun p => decide (db p.1 ≠ some p.2))
  let changed_df := filter_df.filter (fun p => decide ((db p.1).isSome ∧ db p.1 ≠ some 5))
  let nonequal_df := filter_df.filter (fun p => decide (db p.1 = none ∨ db p.1 = some 5))
  (changed_df.map Prod.fst, nonequal_df.map Prod.fst)

/-- `self.changed_flag` after `_create_wsj_format` (src/wsj_cleaner.py lines
82-97): set when a symbol has duplicated formats or when
`changed_format_symbols` is non-empty. -/
def changed_flag (profile : List (String × Int)) (db : String → Option Int) : Bool :=
  has_duplicated_symbol profile || !(test_equality profile db).1.isEmpty

/-- The rows upserted by `save_profile_to_database` (src/wsj_cleaner.py lines
256-268): only `profile_data` rows whose symbol is in `new_format_symbols`
(when that set is empty nothing is written, which the filter also yields). -/
def save_profile_records (profile : List (String × Int)) (db : String → Option Int) :
    List (String × Int) :=
  profile.filter (fun p => decide (p.1 ∈ (test_equality profile db).2))

/-- C4. Format drift is surfaced, never auto-resolved: a symbol whose newly
resolved format differs from a recorded format that is non-null and not 5
raises the drift flag, lands in `changed_format_symbols`, and is excluded
from the rows written back to the profile store; every row that is written
back belongs to a symbol whose recorded format was null or 5. -/
theorem format_drift_surfaced (profile : List (String × Int)) (db : String → Option Int)
    (s : String) (f g : Int)
    (hmem : (s, f) ∈ profile) (hdb : db s = some g) (hg5 : g ≠ 5) (hgf : g ≠ f) :
    changed_flag profile db = true ∧
    s ∈ (test_equality profile db).1 ∧
    s ∉ (save_profile_records profile db).map Prod.fst ∧
    (∀ p ∈ save_profile_records profile db, db p.1 = none ∨ db p.1 = some 5) := by
  have hchanged : s ∈ (test_equality profile db).1 := by
    simp only [test_equality]
    refine List.mem_map.mpr ⟨(s, f), ?_, rfl⟩
    refine List.mem_filter.mpr ⟨List.mem_filter.mpr ⟨hmem, ?_⟩, ?_⟩
    · simp [hdb, hgf]
    · simp [hdb, hg5]
  have hsaved : ∀ p ∈ save_profile_records profile db, db p.1 = none ∨ db p.1 = some 5 := by
    intro p hp
    simp only [save_profile_records] at hp
    have h2 := (List.mem_filter.mp hp).2
    have hmem2 : p.1 ∈ (test_equality profile db).2 := of_decide_eq_true h2
    simp only [test_equality] at hmem2
    obtain ⟨q, hq, hq1⟩ := List.mem_map.mp hmem2
    have hq2 := (List.mem_filter.mp hq).2
    rw [← hq1]
    simpa using hq2
  have hnot : s ∉ (save_profile_records profile db).map Prod.fst := by
    intro hin
    obtain ⟨p, hp, hp1⟩ := List.mem_map.mp hin
    rcases hsaved p hp with h | h <;> rw [hp1, hdb] at h
    · exact Option.noConfusion h
    · exact hg5 (by simpa using h)
  refine ⟨?_, hchanged, hnot, hsaved⟩
  rcases hE : (test_equality profile db).1 with _ | ⟨a, l⟩
  · rw [hE] at hchanged
    cases hchanged
  · simp [changed_flag, hE]

/-- A one-symbol recorded-format table: AAA recorded as format 1. -/
def dbEx : String → Option Int := fun s => if s = "AAA" then some 1 else none

/-- Witness for C4: AAA resolved to format 3 while recorded as 1 — flagged,
listed as changed, and not persisted. -/
theorem format_drift_surfaced_witness :
    changed_flag [("AAA", 3)] dbEx = true ∧
    "AAA" ∈ (test_equality [("AAA", 3)] dbEx).1 ∧
    "AAA" ∉ (save_profile_records [("AAA", 3)] dbEx).map Prod.fst ∧
    (∀ p ∈ save_profile_records [("AAA", 3)] dbEx, dbEx p.1 = none ∨ dbEx p.1 = some 5) :=
  format_drift_surfaced [("AAA", 3)] dbEx "AAA" 3 1 (by decide) rfl (by decide) (by decide)

/-! ## Page fetch loop of `get_statement_data` (src/wsj_updater.py lines
259-275 and 299-306).

One attempt requests the page; if the statement container element is absent,
`soup.find(...).find(...)` raises `AttributeError` (modelled by
`WSJPage.noContainer`), which is caught outside the `while` loop: the symbol
is marked missing at once.  If the container exists, the code tests
`table_div.find_all('div', recursive=False) is not None` — but BeautifulSoup
`find_all` always returns a (possibly empty) list, never `None`, so
`find_all_divs` below is always `some` and the loop always breaks on its
first iteration; with no data tables the later `tables[0]` raises
`IndexError` and the symbol is marked missing without any retry. -/

inductive WSJPage where
  | noContainer
  | withContainer (divs : List Unit)
deriving DecidableEq, Repr

inductive FetchOutcome where
  | pageNotFound
  | gotTables (tables : List Unit)
  | exhaustedRetries
deriving DecidableEq, Repr

/-- BeautifulSoup `find_all`: always a list, never Python `None`. -/
def find_all_divs (divs : List Unit) : Option (List Unit) := some divs

/-- The `while i < self.max_retry` loop body; `i` counts issued requests and
`fuel` is `max_retry - i`.  Returns the outcome and the number of page
requests actually made. -/
def fetch_go (page : Nat → WSJPage) : Nat → Nat → FetchOutcome × Nat
  | i, 0 => (FetchOutcome.exhaustedRetries, i)
  | i, fuel + 1 =>
    match page i with
    | WSJPage.noContainer => (FetchOutcome.pageNotFound, i + 1)
    | WSJPage.withContainer divs =>
      match find_all_divs divs with
      | some ds => (FetchOutcome.gotTables (ds.drop 1), i + 1)
      | none => fetch_go page (i + 1) fuel

/-- The whole retry loop of src/wsj_updater.py lines 259-271 for one
symbol/statement fetch. -/
def fetch_tables (max_retry : Nat) (page : Nat → WSJPage) : FetchOutcome × Nat :=
  fetch_go page 0 max_retry

/-- C6 evidence. The missing-container half of the claim holds: an absent
container is treated as permanent after a single request.  The retry half
fails on the code: with `max_retry = 3` and every attempt returning a page
whose container exists but holds no data tables, the loop still stops after
one request (the `is not None` test on `find_all`'s list result is always
true), handing back an empty table list instead of retrying; in general no
input ever makes a second request. -/
theorem fetch_single_attempt :
    fetch_tables 3 (fun _ => WSJPage.noContainer) = (FetchOutcome.pageNotFound, 1) ∧
    fetch_tables 3 (fun _ => WSJPage.withContainer []) = (FetchOutcome.gotTables [], 1) ∧
    (∀ (n : Nat) (page : Nat → WSJPage), (fetch_tables (n + 1) page).2 = 1) := by
  refine ⟨rfl, rfl, ?_⟩
  intro n page
  show (fetch_go page 0 (n + 1)).2 = 1
  match hp : page 0 with
  | WSJPage.noContainer => simp [fetch_go, hp]
  | WSJPage.withContainer divs => simp [fetch_go, hp, find_all_divs]

/-! ## Raw-record accumulation: `self.result_dict` in `get_statement_data`
(src/wsj_updater.py lines 138-141, 231-241 and 327-347).

The accumulator holds the `symbol` and `date` columns plus one list per
metric column, in insertion order.  Each symbol contributes either a merged
block (`symbol_dd` rows appended after `get_rowsdata` ran on its tables) or,
when a later table of the symbol failed and the merge was skipped by
`continue`, only the column names its successful tables had already created
in `result_dict`. -/

abbrev ColName := String

structure ScrapeState where
  syms : List String
  dates : List Int
  cols : List (ColName × List Cell)
deriving DecidableEq, Repr

/-- `col_name in self.result_dict` / `self.result_dict[col_name]` on the
metric columns: first entry with the given name. -/
def lookupCol : List (ColName × List Cell) → ColName → Option (List Cell)
  | [], _ => none
  | p :: rest, c => if p.1 = c then some p.2 else lookupCol rest c

/-- Column creation in `get_rowsdata` (src/wsj_updater.py lines 231-235): a
name not yet in `result_dict` is appended, back-filled with one null per row
already accumulated (`[None] * len(self.result_dict['symbol'])`; nothing when
no rows exist yet). -/
def addColIfNew (st : ScrapeState) (c : ColName) : ScrapeState :=
  match lookupCol st.cols c with
  | some _ => st
  | none => { st with cols := st.cols ++ [(c, List.replicate st.syms.length Cell.null)] }

/-- The column names created while `get_rowsdata` processes a symbol's
tables, in row order. -/
def addCols (st : ScrapeState) (names : List ColName) : ScrapeState :=
  names.foldl addColIfNew st

/-- Appending one symbol's values to one existing column (src/wsj_updater.py
lines 335-342), including the length-mismatch branch that first pads the
column with nulls up to `cur_len`. -/
def appendCol (cur_len : Nat) (old vs : List Cell) : List Cell :=
  if old.length + vs.length ≠ cur_len then
    (old ++ List.replicate (cur_len - old.length) Cell.null) ++ vs
  else old ++ vs

/-- New value of one accumulated column when merging a symbol: columns the
symbol has get its values appended; columns it lacks (`nonexist_colnames`,
src/wsj_updater.py lines 344-347) are padded with nulls up to the new row
count. -/
def mergeColVal (cur_len : Nat) (fields : List (ColName × List Cell)) (c : ColName)
    (old : List Cell) : List Cell :=
  match lookupCol fields c with
  | some vs => appendCol cur_len old vs
  | none => old ++ List.replicate (cur_len - old.length) Cell.null

/-- Merging one symbol's `symbol_dd` into `result_dict` (src/wsj_updater.py
lines 327-347), after `get_rowsdata` created its column names. -/
def mergeSymbol (st : ScrapeState) (sym : String) (ds : List Int)
    (fields : List (ColName × List Cell)) : ScrapeState :=
  let st1 := addCols st (fields.map Prod.fst)
  let syms1 := st1.syms ++ List.replicate ds.length sym
  { syms := syms1, dates := st1.dates ++ ds,
    cols := st1.cols.map (fun p => (p.1, mergeColVal syms1.length fields p.1 p.2)) }

inductive Contribution where
  | merged (sym : String) (ds : List Int) (fields : List (ColName × List Cell))
  | aborted (names : List ColName)

def scrapeStep (st : ScrapeState) : Contribution → ScrapeState
  | .merged sym ds fields => mergeSymbol st sym ds fields
  | .aborted names => addCols st names

def initState : ScrapeState := { syms := [], dates := [], cols := [] }

/-- The whole accumulation run over the processed symbols. -/
def scrapeRun (cs : List Contribution) : ScrapeState := cs.foldl scrapeStep initState

/-- Rectangularity: the date column and every metric column have exactly one
entry per accumulated row. -/
def isRect (st : ScrapeState) : Prop :=
  st.dates.length = st.syms.length ∧ ∀ p ∈ st.cols, p.2.length = st.syms.length

/-- Well-formedness of one contribution, guaranteed by `get_rowsdata`: each
extracted column carries exactly one value per retained date. -/
def contribWF : Contribution → Prop
  | .merged _ ds fields => ∀ p ∈ fields, p.2.length = ds.length
  | .aborted _ => True

instance : ∀ k : Contribution, Decidable (contribWF k)
  | .merged _ ds fields => inferInstanceAs (Decidable (∀ p ∈ fields, p.2.length = ds.length))
  | .aborted _ => inferInstanceAs (Decidable True)

lemma lookupCol_append (l₁ l₂ : List (ColName × List Cell)) (c : ColName) :
    lookupCol (l₁ ++ l₂) c
      = match lookupCol l₁ c with
        | some v => some v
        | none => lookupCol l₂ c := by
  induction l₁ with
  | nil => rfl
  | cons p rest ih =>
    by_cases hp : p.1 = c <;> simp [lookupCol, hp, ih]

lemma lookupCol_eq_some_mem {l : List (ColName × List Cell)} {c : ColName} {v : List Cell}
    (h : lookupCol l c = some v) : (c, v) ∈ l := by
  induction l with
  | nil => cases h
  | cons p rest ih =>
    by_cases hp : p.1 = c
    · simp only [lookupCol, hp, if_pos] at h
      exact List.mem_cons.mpr (Or.inl (by rw [← hp, ← Option.some_inj.mp h]))
    · simp only [lookupCol, hp, if_neg, ite_false] at h
      exact List.mem_cons.mpr (Or.inr (ih h))

lemma lookupCol_map_vals (l : List (ColName × List Cell))
    (f : ColName → List Cell → List Cell) (c : ColName) :
    lookupCol (l.map (fun p => (p.1, f p.1 p.2))) c = (lookupCol l c).map (f c) := by
  induction l with
  | nil => rfl
  | cons p rest ih =>
    by_cases hp : p.1 = c <;> simp [lookupCol, hp, ih]

lemma addColIfNew_syms (st : ScrapeState) (c : ColName) :
    (addColIfNew st c).syms = st.syms := by
  unfold addColIfNew
  cases lookupCol st.cols c <;> rfl

lemma addColIfNew_dates (st : ScrapeState) (c : ColName) :
    (addColIfNew st c).dates = st.dates := by
  unfold addColIfNew
  cases lookupCol st.cols c <;> rfl

lemma addCols_syms (names : List ColName) (st : ScrapeState) :
    (addCols st names).syms = st.syms := by
  induction names generalizing st with
  | nil => rfl
  | cons n ns ih => rw [addCols, List.foldl_cons, ← addCols, ih, addColIfNew_syms]

lemma addCols_dates (names : List ColName) (st : ScrapeState) :
    (addCols st names).dates = st.dates := by
  induction names generalizing st with
  | nil => rfl
  | cons n ns ih => rw [addCols, List.foldl_cons, ← addCols, ih, addColIfNew_dates]

lemma addColIfNew_rect (st : ScrapeState) (c : ColName) (h : isRect st) :
    isRect (addColIfNew st c) := by
  obtain ⟨h1, h2⟩ := h
  unfold addColIfNew
  cases lookupCol st.cols c with
  | some v => exact ⟨h1, h2⟩
  | none =>
    refine ⟨h1, ?_⟩
    intro p hp
    rcases List.mem_append.mp hp with hmem | hmem
    · exact h2 p hmem
    · rw [List.mem_singleton.mp hmem]
      simp

lemma addCols_rect (names : List ColName) (st : ScrapeState) (h : isRect st) :
    isRect (addCols st names) := by
  induction names generalizing st with
  | nil => exact h
  | cons n ns ih => exact ih (addColIfNew st n) (addColIfNew_rect st n h)

lemma lookupCol_addColIfNew_of_some (st : ScrapeState) (c' c : ColName) {v : List Cell}
    (h : lookupCol st.cols c = some v) :
    lookupCol (addColIfNew st c').cols c = some v := by
  unfold addColIfNew
  cases h' : lookupCol st.cols c' with
  | some w => exact h
  | none => simp [lookupCol_append, h]

lemma lookupCol_addCols_of_some (names : List ColName) (st : ScrapeState) (c : ColName)
    {v : List Cell} (h : lookupCol st.cols c = some v) :
    lookupCol (addCols st names).cols c = some v := by
  induction names generalizing st with
  | nil => exact h
  | cons n ns ih =>
    rw [addCols, List.foldl_cons, ← addCols]
    exact ih _ (lookupCol_addColIfNew_of_some st n c h)

lemma lookupCol_addCols_new (names : List ColName) (st : ScrapeState) (c : ColName)
    (hnone : lookupCol st.cols c = none) (hmem : c ∈ names) :
    lookupCol (addCols st names).cols c = some (List.replicate st.syms.length Cell.null) := by
  induction names generalizing st with
  | nil => cases hmem
  | cons n ns ih =>
    rw [addCols, List.foldl_cons, ← addCols]
    by_cases hn : n = c
    · subst hn
      have hnew : lookupCol (addColIfNew st n).cols n
          = some (List.replicate st.syms.length Cell.null) := by
        simp only [addColIfNew, hnone]
        rw [lookupCol_append, hnone]
        simp [lookupCol]
      exact lookupCol_addCols_of_some ns _ n hnew
    · have hpres : lookupCol (addColIfNew st n).cols c = none := by
        unfold addColIfNew
        cases h' : lookupCol st.cols n with
        | some w => exact hnone
        | none =>
          rw [lookupCol_append, hnone]
          simp [lookupCol, hn]
      have hc : c ∈ ns := (List.mem_cons.mp hmem).resolve_left (fun h => hn h.symm)
      have hres := ih (addColIfNew st n) hpres hc
      rwa [addColIfNew_syms] at hres

lemma mergeColVal_of_some {fields : List (ColName × List Cell)} {c : ColName}
    {vs : List Cell} (h : lookupCol fields c = some vs) (cur : Nat) (old : List Cell) :
    mergeColVal cur fields c old = appendCol cur old vs := by
  unfold mergeColVal
  rw [h]

lemma mergeColVal_of_none {fields : List (ColName × List Cell)} {c : ColName}
    (h : lookupCol fields c = none) (cur : Nat) (old : List Cell) :
    mergeColVal cur fields c old = old ++ List.replicate (cur - old.length) Cell.null := by
  unfold mergeColVal
  rw [h]

lemma mergeSymbol_rect (st : ScrapeState) (sym : String) (ds : List Int)
    (fields : List (ColName × List Cell)) (hwf : ∀ p ∈ fields, p.2.length = ds.length)
    (h : isRect st) : isRect (mergeSymbol st sym ds fields) := by
  have hst1 : isRect (addCols st (fields.map Prod.fst)) := addCols_rect _ st h
  obtain ⟨h1, h2⟩ := hst1
  constructor
  · simp [mergeSymbol, h1]
  · intro p hp
    simp only [mergeSymbol, List.mem_map] at hp
    obtain ⟨q, hq, hq1⟩ := hp
    rw [← hq1]
    have hqlen := h2 q hq
    simp only [mergeSymbol]
    cases hf : lookupCol fields q.1 with
    | none =>
      rw [mergeColVal_of_none hf]
      simp only [List.length_append, List.length_replicate]
      omega
    | some vs =>
      have hvs : vs.length = ds.length := hwf _ (lookupCol_eq_some_mem hf)
      rw [mergeColVal_of_some hf]
      unfold appendCol
      rw [if_neg]
      · simp [hqlen, hvs]
      · simp [hqlen, hvs]

lemma scrapeStep_rect (st : ScrapeState) (k : Contribution) (hwf : contribWF k)
    (h : isRect st) : isRect (scrapeStep st k) := by
  cases k with
  | merged sym ds fields => exact mergeSymbol_rect st sym ds fields hwf h
  | aborted names => exact addCols_rect names st h

lemma scrapeRun_aux (cs : List Contribution) (st : ScrapeState)
    (hwf : ∀ k ∈ cs, contribWF k) (h : isRect st) : isRect (cs.foldl scrapeStep st) := by
  induction cs generalizing st with
  | nil => exact h
  | cons k ks ih =>
    exact ih _ (fun k' hk' => hwf k' (List.mem_cons_of_mem _ hk'))
      (scrapeStep_rect st k (hwf k (List.mem_cons_self _ _)) h)

/-- C9. Rectangularity: a completed run over well-formed contributions (each
extracted column holding one value per retained date) leaves every metric
column with exactly one entry per accumulated (symbol, date) row; and a
column first discovered while merging a symbol is back-filled with one null
per previously accumulated row, followed by that symbol's values. -/
theorem scrape_rectangular :
    (∀ cs : List Contribution, (∀ k ∈ cs, contribWF k) → isRect (scrapeRun cs)) ∧
    (∀ (st : ScrapeState) (sym : String) (ds : List Int)
       (fields : List (ColName × List Cell)) (c : ColName) (vs : List Cell),
       (∀ p ∈ fields, p.2.length = ds.length) →
       lookupCol st.cols c = none → lookupCol fields c = some vs →
       lookupCol (mergeSymbol st sym ds fields).cols c
         = some (List.replicate st.syms.length Cell.null ++ vs)) := by
  constructor
  · intro cs hwf
    exact scrapeRun_aux cs initState hwf ⟨rfl, fun p hp => absurd hp (List.not_mem_nil p)⟩
  · intro st sym ds fields c vs hwf hnone hf
    have hcm : c ∈ fields.map Prod.fst :=
      List.mem_map.mpr ⟨(c, vs), lookupCol_eq_some_mem hf, rfl⟩
    have hst1 : lookupCol (addCols st (fields.map Prod.fst)).cols c
        = some (List.replicate st.syms.length Cell.null) :=
      lookupCol_addCols_new _ st c hnone hcm
    have hvs : vs.length = ds.length := hwf _ (lookupCol_eq_some_mem hf)
    have hsy := addCols_syms (fields.map Prod.fst) st
    simp only [mergeSymbol]
    rw [lookupCol_map_vals, hst1]
    simp only [Option.map_some']
    rw [mergeColVal_of_some hf]
    unfold appendCol
    rw [if_neg]
    simp [hsy, hvs]

/-- A one-symbol accumulated state: AAA contributed one row with one column. -/
def exSt : ScrapeState :=
  { syms := ["AAA"], dates := [5], cols := [("total_assets", [Cell.num 1])] }

/-- Witness for C9: a two-symbol run stays rectangular, and the column first
discovered with the second symbol is back-filled with a null for the first
symbol's row. -/
theorem scrape_rectangular_witness :
    isRect (scrapeRun [Contribution.merged "AAA" [5] [("total_assets", [Cell.num 1])],
      Contribution.merged "BBB" [4, 3] [("net_income", [Cell.num 2, Cell.num 3])]]) ∧
    lookupCol (mergeSymbol exSt "BBB" [4, 3]
        [("net_income", [Cell.num 2, Cell.num 3])]).cols "net_income"
      = some (List.replicate exSt.syms.length Cell.null ++ [Cell.num 2, Cell.num 3]) :=
  ⟨scrape_rectangular.1 _ (by decide),
   scrape_rectangular.2 exSt "BBB" [4, 3] [("net_income", [Cell.num 2, Cell.num 3])]
     "net_income" [Cell.num 2, Cell.num 3] (by decide) (by decide) (by decide)⟩

/-! ## Sync layer.

Modelled from the spec: the batched upsert `WSJCleaner.upsert_data_to_database`
is invoked as `upsert_data_to_database(batch_size=10)` from
`scrape_financial_data.main` (src/scrape_financial_data.py line 61) but the
method itself is not part of `src/wsj_cleaner.py` (which only retains the
older single-call `save_data_to_database`); the definitions below follow
spec section 4.6: one call below the size threshold, fixed-size sequential
batches above it, a fixed per-batch retry budget, a durable fallback spill
for a batch that exhausts its retries, and an aggregate boolean that is true
only when every batch committed.  `ok i a` tells whether attempt `a` of
batch `i` succeeds against the store. -/

/-- Modelled from the spec: splitting the cleaned table into batches of `bs`
records (the last batch may be smaller).  `fuel` is bounded by the list length, keeping the
definition structurally recursive. -/
def chunkGo {α : Type} (bs : Nat) : Nat → List α → List (List α)
  | _, [] => []
  | 0, l => [l]
  | fuel + 1, a :: rest => (a :: rest.take (bs - 1)) :: chunkGo bs fuel (rest.drop (bs - 1))

def chunkTable {α : Type} (bs : Nat) (l : List α) : List (List α) := chunkGo bs l.length l

/-- Modelled from the spec: one batch commits when some attempt within the
retry budget succeeds. -/
def batchCommits (ok : Nat → Bool) (max_retry : Nat) : Bool :=
  (List.range max_retry).any ok

structure SyncResult (α : Type) where
  committed : List (List α)
  spilled : List (List α)
  success : Bool
deriving DecidableEq, Repr

/-- Modelled from the spec: processing one indexed batch — appended to the
committed batches on success, spilled to the durable fallback (and the
aggregate flag cleared) after the retries are exhausted. -/
def syncStep {α : Type} (ok : Nat → Nat → Bool) (max_retry : Nat)
    (acc : SyncResult α) (p : Nat × List α) : SyncResult α :=
  if batchCommits (ok p.1) max_retry then
    { acc with committed := acc.committed ++ [p.2] }
  else
    { committed := acc.committed, spilled := acc.spilled ++ [p.2], success := false }

def syncBatches {α : Type} (ok : Nat → Nat → Bool) (max_retry : Nat)
    (batches : List (List α)) : SyncResult α :=
  batches.enum.foldl (syncStep ok max_retry)
    { committed := [], spilled := [], success := true }

/-- Modelled from the spec: the batched, retrying, fallback-spilling upsert of
spec section 4.6 (absent from src/, see the section comment above). -/
def upsert_data_to_database {α : Type} (batch_size max_retry : Nat) (ok : Nat → Nat → Bool)
    (table : List α) : SyncResult α :=
  syncBatches ok max_retry (chunkTable batch_size table)

lemma chunkGo_flatten {α : Type} (bs : Nat) : ∀ (fuel : Nat) (l : List α),
    (chunkGo bs fuel l).flatten = l
  | 0, [] => rfl
  | 0, _ :: _ => by simp [chunkGo]
  | fuel + 1, [] => rfl
  | fuel + 1, a :: rest => by
    simp only [chunkGo, List.flatten_cons, chunkGo_flatten bs fuel]
    simp [List.take_append_drop]

lemma chunkGo_mem {α : Type} (bs : Nat) (hbs : 0 < bs) : ∀ (fuel : Nat) (l : List α),
    l.length ≤ fuel → ∀ b ∈ chunkGo bs fuel l, b ≠ [] ∧ b.length ≤ bs
  | 0, [], _ => by simp [chunkGo]
  | 0, _ :: _, h => absurd h (by simp)
  | fuel + 1, [], _ => by simp [chunkGo]
  | fuel + 1, a :: rest, h => by
    intro b hb
    rcases List.mem_cons.mp hb with hb | hb
    · subst hb
      refine ⟨by simp, ?_⟩
      simp only [List.length_cons, List.length_take]
      omega
    · refine chunkGo_mem bs hbs fuel (rest.drop (bs - 1)) ?_ b hb
      simp only [List.length_drop]
      simp at h
      omega

lemma chunkGo_small {α : Type} (bs : Nat) : ∀ (fuel : Nat) (l : List α),
    l.length ≤ fuel → l.length ≤ bs → chunkGo bs fuel l = if l.isEmpty then [] else [l]
  | 0, [], _, _ => rfl
  | 0, _ :: _, h, _ => absurd h (by simp)
  | fuel + 1, [], _, _ => rfl
  | fuel + 1, a :: rest, h, hbs => by
    have h1 : rest.take (bs - 1) = rest := List.take_of_length_le (by simp at hbs; omega)
    have h2 : rest.drop (bs - 1) = [] := List.drop_eq_nil_of_le (by simp at hbs; omega)
    simp [chunkGo, h1, h2]

lemma syncFold_spec {α : Type} (ok : Nat → Nat → Bool) (mr : Nat) :
    ∀ (l : List (Nat × List α)) (acc : SyncResult α),
    l.foldl (syncStep ok mr) acc
      = { committed := acc.committed
            ++ (l.filter (fun p => batchCommits (ok p.1) mr)).map Prod.snd,
          spilled := acc.spilled
            ++ (l.filter (fun p => !batchCommits (ok p.1) mr)).map Prod.snd,
          success := acc.success && l.all (fun p => batchCommits (ok p.1) mr) } := by
  intro l
  induction l with
  | nil => intro acc; simp
  | cons p rest ih =>
    intro acc
    by_cases hp : batchCommits (ok p.1) mr
    · simp [syncStep, hp, ih]
    · simp [syncStep, hp, ih, Bool.eq_false_iff.mpr hp]

/-- C5 (spec-modelled).  Batching and aggregate result of the sync layer: a
table not above the batch size yields a single batch; a larger table is
split into sequential batches of at most the batch size whose concatenation
is the table; a batch commits exactly when one of its `max_retry` attempts
succeeds; committed and spilled batches are exactly those with/without a
successful attempt, with earlier committed batches unaffected by later
spills; and the aggregate boolean is true exactly when nothing was spilled. -/
theorem sync_batching {α : Type} (batch_size max_retry : Nat) (ok : Nat → Nat → Bool)
    (table : List α) (hbs : 0 < batch_size) :
    (chunkTable batch_size table).flatten = table ∧
    (table.length ≤ batch_size →
      chunkTable batch_size table = if table.isEmpty then [] else [table]) ∧
    (∀ b ∈ chunkTable batch_size table, b ≠ [] ∧ b.length ≤ batch_size) ∧
    (∀ i : Nat, batchCommits (ok i) max_retry = true ↔ ∃ a < max_retry, ok i a = true) ∧
    (upsert_data_to_database batch_size max_retry ok table).committed
      = ((chunkTable batch_size table).enum.filter
          (fun p => batchCommits (ok p.1) max_retry)).map Prod.snd ∧
    (upsert_data_to_database batch_size max_retry ok table).spilled
      = ((chunkTable batch_size table).enum.filter
          (fun p => !batchCommits (ok p.1) max_retry)).map Prod.snd ∧
    ((upsert_data_to_database batch_size max_retry ok table).success = true ↔
      (upsert_data_to_database batch_size max_retry ok table).spilled = []) := by
  have hspec := syncFold_spec ok max_retry (chunkTable batch_size table).enum
    { committed := [], spilled := [], success := true }
  refine ⟨chunkGo_flatten batch_size table.length table,
    fun hsmall => chunkGo_small batch_size table.length table le_rfl hsmall,
    chunkGo_mem batch_size hbs table.length table le_rfl,
    fun i => by simp [batchCommits, List.any_eq_true, List.mem_range], ?_, ?_, ?_⟩
  · rw [upsert_data_to_database, syncBatches, hspec]
    simp
  · rw [upsert_data_to_database, syncBatches, hspec]
    simp
  · rw [upsert_data_to_database, syncBatches, hspec]
    simp only [Bool.true_and, List.all_eq_true, List.nil_append, List.map_eq_nil_iff,
      List.filter_eq_nil_iff]
    constructor
    · intro hall p hp
      simp [hall p hp]
    · intro hall p hp
      have := hall p hp
      simpa using this

/-- The failing-second-batch oracle of the spec's batch test: every attempt
on batch index 1 fails, all other batches succeed at once. -/
def okEx : Nat → Nat → Bool := fun i _ => i != 1

/-- Witness for C5: batch size 2, two retries, table of five records — the
middle batch spills, the first and last commit, overall result is failure. -/
theorem sync_batching_witness :
    ((upsert_data_to_database 2 2 okEx ([1, 2, 3, 4, 5] : List Nat)).success = true ↔
      (upsert_data_to_database 2 2 okEx ([1, 2, 3, 4, 5] : List Nat)).spilled = []) ∧
    (upsert_data_to_database 2 2 okEx ([1, 2, 3, 4, 5] : List Nat)).success = false ∧
    (upsert_data_to_database 2 2 okEx ([1, 2, 3, 4, 5] : List Nat)).spilled = [[3, 4]] ∧
    (upsert_data_to_database 2 2 okEx ([1, 2, 3, 4, 5] : List Nat)).committed
      = [[1, 2], [5]] :=
  ⟨(sync_batching 2 2 okEx [1, 2, 3, 4, 5] (by decide)).2.2.2.2.2.2,
    by decide, by decide, by decide⟩

end WSJ
